import Mathlib

/-!
Shallow embedding of the pyweatherfetch weather pipeline
(`src/pyweatherfetch/_openweathermap.py` and the rendering part of
`src/pyweatherfetch/_main.py`) together with theorems checking the
natural-language specification against it.

Conventions of the embedding:
* Python `Decimal` values produced by `quantize` are modelled by
  `ScaledDecimal` (an integer mantissa at a fixed decimal scale).
* Numeric payload fields are modelled as exact rationals (`ℚ`): the exact
  value that reaches `Decimal(...)` in the source.
* Timestamps are epoch seconds (`ℤ`); a fixed-offset time zone is an
  offset in seconds.
* Fallible operations return `Except`: a Python dictionary lookup that can
  raise `KeyError` returns `Except String _` carrying the missing key, and
  I/O that can raise returns `Except Unit _` / an error constructor.
-/

/-- A decimal number `mant / 10^scale`, the result of Python
`Decimal(...).quantize(...)`: an integer mantissa at a fixed scale. -/
structure ScaledDecimal where
  mant : ℤ
  scale : ℕ
  deriving DecidableEq, Repr

/-- Exact rational value of a `ScaledDecimal`. -/
def ScaledDecimal.toRat (x : ScaledDecimal) : ℚ := (x.mant : ℚ) / 10 ^ x.scale

/-- Zero-pad a digit string on the left to length `n`. -/
def padZeros (s : String) (n : ℕ) : String :=
  String.mk (List.replicate (n - s.length) '0') ++ s

/-- String form of a quantized decimal, as Python `str(Decimal(...))`
renders it: optional sign, integer part, point, `scale` fraction digits. -/
def ScaledDecimal.str (x : ScaledDecimal) : String :=
  let a := x.mant.natAbs
  let ip := a / 10 ^ x.scale
  let fp := a % 10 ^ x.scale
  (if x.mant < 0 then "-" else "") ++ toString ip ++
    (if x.scale = 0 then "" else "." ++ padZeros (toString fp) x.scale)

/-- `Decimal(q).quantize(Decimal(10^-scale))` under Python's default
decimal context, whose rounding mode is ROUND_HALF_EVEN: round to the
nearest multiple of `10^-scale`, ties to the even mantissa.  This is what
`_filter_data` calls on `temp`, `feels_like` and `wind.speed`. -/
def quantizeHalfEven (q : ℚ) (scale : ℕ) : ScaledDecimal :=
  let s : ℚ := 10 ^ scale
  let n : ℤ := ⌊q * s⌋
  let r : ℚ := q * s - n
  let m : ℤ :=
    if r < 1 / 2 then n
    else if 1 / 2 < r then n + 1
    else if Even n then n else n + 1
  ⟨m, scale⟩

/-- Modelled from the spec: "standard round-half-up decimal rounding"
(decimal ROUND_HALF_UP: round to nearest, ties away from zero).  The spec
claims the source rounds this way; kept as a separate definition so the
source's rounding can be compared against it. -/
def quantizeHalfUpSpec (q : ℚ) (scale : ℕ) : ScaledDecimal :=
  let s : ℚ := 10 ^ scale
  let n : ℤ := ⌊q * s⌋
  let r : ℚ := q * s - n
  let m : ℤ :=
    if r < 1 / 2 then n
    else if 1 / 2 < r then n + 1
    else if 0 ≤ q then n + 1 else n
  ⟨m, scale⟩

/-- The provider payload as consumed by `_filter_data`: the JSON fields
the source reads (`main.*`, `weather[0].icon`, `wind.*`, `timezone`,
`sys.sunrise`, `sys.sunset`, `dt`). -/
structure Payload where
  dt : ℤ
  temp : ℚ
  feels_like : ℚ
  pressure : ℤ
  humidity : ℤ
  icon : String
  wind_speed : ℚ
  wind_deg : ℚ
  timezone_offset : ℤ
  sunrise : ℤ
  sunset : ℤ
  deriving DecidableEq, Repr

/-- The normalized record built by `_filter_data` (the `filtered` dict).
Localized datetimes are kept as (UTC epoch, fixed offset). -/
structure Report where
  calculated_at : ℤ
  temperature : ScaledDecimal
  feels_like : ScaledDecimal
  pressure : ℤ
  humidity : ℤ
  icon : String
  icon_colour : String
  wind_speed : ScaledDecimal
  wind_direction : Option String
  timezone_offset : ℤ
  sunrise : ℤ
  sunset : ℤ
  deriving DecidableEq, Repr

/-- The `_icons` table: provider condition code → nerd-font glyph. -/
def _icons : List (String × String) :=
  [("01d", ""), ("01n", ""),
   ("02d", ""), ("02n", ""),
   ("03d", ""), ("03n", ""),
   ("04d", ""), ("04n", ""),
   ("09d", ""), ("09n", ""),
   ("10d", ""), ("10n", ""),
   ("11d", ""), ("11n", ""),
   ("13d", ""), ("13n", ""),
   ("50d", ""), ("50n", "")]

/-- The `_icon_colours` table: provider condition code → hex colour. -/
def _icon_colours : List (String × String) :=
  [("01d", "#e5c07b"), ("01n", "#34e2e2"),
   ("02d", "#e5c07b"), ("02n", "#34e2e2"),
   ("03d", "#eea825"), ("03n", "#56b6c2"),
   ("04d", "#abb2bf"), ("04n", "#6f737b"),
   ("09d", "#abb2bf"), ("09n", "#6f737b"),
   ("10d", "#abb2bf"), ("10n", "#6f737b"),
   ("11d", "#e06c75"), ("11n", "#e05661"),
   ("13d", "#f2f2f2"), ("13n", "#abb2bf"),
   ("50d", "#abb2bf"), ("50n", "#6f737b")]

/-- Python dictionary lookup `d[k]`: the value, or a `KeyError` carrying
the missing key. -/
def dictLookup (l : List (String × String)) (k : String) : Except String String :=
  match l.find? (fun kv => kv.1 == k) with
  | some kv => .ok kv.2
  | none => .error k

/-- The wedge table of `_interpret_direction`:
(lower bound, upper bound, direction). -/
def cardinals : List (ℚ × ℚ × String) :=
  [(348.75, 11.25, "N"),
   (11.25, 33.75, "NNE"),
   (33.75, 56.25, "NE"),
   (56.25, 78.75, "ENE"),
   (78.75, 101.25, "E"),
   (101.25, 123.75, "ESE"),
   (123.75, 146.25, "SE"),
   (146.25, 168.75, "SSE"),
   (168.75, 191.25, "S"),
   (191.25, 213.75, "SSW"),
   (213.75, 236.25, "SW"),
   (236.25, 258.75, "WSW"),
   (258.75, 281.25, "W"),
   (281.25, 303.75, "WNW"),
   (303.75, 326.25, "NW"),
   (326.25, 348.75, "NNW")]

/-- The `for` loop of `_interpret_direction`: walks the wedge list keeping
the first loose match (`degrees >= lower or degrees < upper`) as
`candidate`; once a candidate exists, a later tight match
(`degrees >= lower and degrees < upper`) returns immediately; at the end
the candidate's label (or `None`) is returned. -/
def _interpret_direction_loop (d : ℚ) :
    List (ℚ × ℚ × String) → Option (ℚ × ℚ × String) → Option String
  | [], none => none
  | [], some c => some c.2.2
  | (lo, hi, s) :: rest, none =>
    if lo ≤ d ∨ d < hi then _interpret_direction_loop d rest (some (lo, hi, s))
    else _interpret_direction_loop d rest none
  | (lo, hi, s) :: rest, some c =>
    if lo ≤ d ∨ d < hi then
      if lo ≤ d ∧ d < hi then some s
      else _interpret_direction_loop d rest (some c)
    else _interpret_direction_loop d rest (some c)

/-- `_interpret_direction`: interpret a degrees value as a cardinal
direction. -/
def _interpret_direction (d : ℚ) : Option String :=
  _interpret_direction_loop d cardinals none

/-- Python dictionary-or-`None` lookup used for the config template
table (`config.get_template` returns the stored template or `None`). -/
def templateLookup (l : List (String × String)) (k : String) : Option String :=
  (l.find? (fun kv => kv.1 == k)).map (fun kv => kv.2)

/-- `_get_cached`'s view of the cache: the file's mtime (epoch seconds,
possibly fractional) and the outcome of `json.load(open(...))`, which can
raise an `IOError` (modelled `.error ()`). -/
structure CacheEntry where
  mtime : ℚ
  read : Except Unit Payload

/-- `_get_cached latitude longitude units` distilled to its decision
inputs: the cache entry for the key (or `none` when the file does not
exist), the current time `now` (epoch seconds) and the configured
`cache_duration` (minutes).  Returns `.ok none` on a miss (absent or
stale), the payload on a hit, and propagates a read failure. -/
def _get_cached (entry : Option CacheEntry) (now cache_duration : ℚ) :
    Except Unit (Option Payload) :=
  match entry with
  | none => .ok none
  | some e =>
    if now - e.mtime > cache_duration * 60 then .ok none
    else e.read.map some

/-- One HTTP response as `_get_fresh` sees it: status, raw body (what
`response.data` decodes to) and the payload `json.loads` parses from the
body when it is consulted. -/
structure Response where
  status : ℕ
  body : String
  parsed : Payload

/-- The outside world of one `_get_fresh` call: the transport outcome
(`.error ()` when `http.request` itself raises — DNS failure, refused
connection, timeout) and whether the cache write in `_cache_response`
raises an `IOError`. -/
structure FetchEnv where
  resp : Except Unit Response
  writeFails : Bool

/-- The errors `get_weather` can propagate, one constructor per Python
exception class: `APIError` (message, `.data`), an uncaught urllib3
transport exception, an uncaught `IOError`/`OSError` from cache I/O, and
an uncaught `KeyError` from `_filter_data`'s dictionary lookups. -/
inductive PyErr where
  | apiError (message : String) (data : Option String)
  | transportError
  | ioError
  | keyError (key : String)
  deriving DecidableEq, Repr

/-- `_cache_response`: writes the payload to the per-key cache file; an
`IOError` from `open(..., 'w')` propagates.  Returns the payload now
stored in the file. -/
def _cache_response (writeFails : Bool) (data : Payload) :
    Except PyErr Payload :=
  if writeFails then .error .ioError else .ok data

/-- `_get_fresh`: one GET against the API.  A transport failure
propagates as the urllib3 exception; a non-200 status raises
`APIError(f"Received error response from API: {status}", body)`;
otherwise the parsed payload is cached and returned.  The second
component records what (if anything) was written to the cache file. -/
def _get_fresh (env : FetchEnv) : Except PyErr Payload × Option Payload :=
  match env.resp with
  | .error _ => (.error .transportError, none)
  | .ok r =>
    if r.status ≠ 200 then
      (.error (.apiError ("Received error response from API: " ++ toString r.status)
        (some r.body)), none)
    else
      match _cache_response env.writeFails r.parsed with
      | .error e => (.error e, none)
      | .ok data => (.ok data, some data)

/-- `_filter_data`: normalize a raw payload into the `filtered` record.
Temperature and feels-like are quantized to 1 decimal digit and wind
speed to 2 (Python `Decimal(...).quantize`, default context); the icon
tables are consulted with plain dictionary lookups whose `KeyError`
propagates; sunrise/sunset are converted to the fixed-offset zone built
from the payload's `timezone` field. -/
def _filter_data (data : Payload) : Except String Report := do
  let icon ← dictLookup _icons data.icon
  let icon_colour ← dictLookup _icon_colours data.icon
  pure
    { calculated_at := data.dt
      temperature := quantizeHalfEven data.temp 1
      feels_like := quantizeHalfEven data.feels_like 1
      pressure := data.pressure
      humidity := data.humidity
      icon := icon
      icon_colour := icon_colour
      wind_speed := quantizeHalfEven data.wind_speed 2
      wind_direction := _interpret_direction data.wind_deg
      timezone_offset := data.timezone_offset
      sunrise := data.sunrise
      sunset := data.sunset }

/-- `get_weather`: try the cache, fall back to a fresh fetch, then
normalize.  A cache read failure propagates uncaught (before any fetch is
attempted); fetch/caching errors propagate; `_filter_data`'s `KeyError`
propagates unwrapped.  The second component records what was written to
the cache file during the call.  (The source's final
`if data == None: raise APIError(...)` guard is unreachable here: parsed
payloads are modelled as structured records, never JSON `null`.) -/
def get_weather (entry : Option CacheEntry) (now cache_duration : ℚ)
    (env : FetchEnv) : Except PyErr Report × Option Payload :=
  match _get_cached entry now cache_duration with
  | .error _ => (.error .ioError, none)
  | .ok (some data) => ((_filter_data data).mapError .keyError, none)
  | .ok none =>
    match _get_fresh env with
    | (.error e, w) => (.error e, w)
    | (.ok data, w) => ((_filter_data data).mapError .keyError, w)

/-- `strftime('%H:%M')` of the localized datetime whose local clock
reading is `local` epoch seconds: zero-padded hour and minute. -/
def hhmm (t : ℤ) : String :=
  let secs := (t % 86400).toNat
  padZeros (toString (secs / 3600)) 2 ++ ":" ++ padZeros (toString (secs % 3600 / 60)) 2

/-- Civil date from days since 1970-01-01 (proleptic Gregorian). -/
def civilFromDays (z : ℤ) : ℤ × ℤ × ℤ :=
  let z := z + 719468
  let era := z / 146097
  let doe := (z % 146097).toNat
  let yoe := (doe - doe / 1460 + doe / 36524 - doe / 146096) / 365
  let doy := doe - (365 * yoe + yoe / 4 - yoe / 100)
  let mp := (5 * doy + 2) / 153
  let day := doy - (153 * mp + 2) / 5 + 1
  let month := if mp < 10 then mp + 3 else mp - 9
  let year := (era * 400 + yoe) + (if month ≤ 2 then 1 else 0)
  (year, month, day)

/-- `str(datetime.fromtimestamp(e, timezone.utc))`:
"YYYY-MM-DD HH:MM:SS+00:00". -/
def pyUtcDatetimeStr (e : ℤ) : String :=
  let (y, m, d) := civilFromDays (e / 86400)
  let secs := (e % 86400).toNat
  padZeros (toString y) 4 ++ "-" ++ padZeros (toString m) 2 ++ "-" ++
    padZeros (toString d) 2 ++ " " ++ padZeros (toString (secs / 3600)) 2 ++ ":" ++
    padZeros (toString (secs % 3600 / 60)) 2 ++ ":" ++
    padZeros (toString (secs % 60)) 2 ++ "+00:00"

/-- `str(value)` for the wind-direction entry of the report: the label,
or Python's `str(None)` when no direction was matched. -/
def directionStr : Option String → String
  | some s => s
  | none => "None"

/-- The `subs` table of `_apply_template`: `(token name, str(value))` in
source order. -/
def templateSubs (w : Report) : List (String × String) :=
  [("icon", w.icon),
   ("icon_colour", w.icon_colour),
   ("temperature", w.temperature.str),
   ("feels_like", w.feels_like.str),
   ("calculated_at", pyUtcDatetimeStr w.calculated_at),
   ("pressure", toString w.pressure),
   ("humidity", toString w.humidity),
   ("sunrise", hhmm (w.sunrise + w.timezone_offset)),
   ("sunset", hhmm (w.sunset + w.timezone_offset)),
   ("wind_speed", w.wind_speed.str),
   ("wind_direction", directionStr w.wind_direction)]

/-- Left-to-right scan of Python `str.replace`, fuelled by the input
length (each step consumes at least one character when the pattern is
non-empty, so `s.length` fuel always suffices). -/
def replaceFuel : ℕ → List Char → List Char → List Char → List Char
  | 0, s, _, _ => s
  | _ + 1, [], _, _ => []
  | fuel + 1, c :: rest, pat, rep =>
    if pat ≠ [] ∧ pat.isPrefixOf (c :: rest) then
      rep ++ replaceFuel fuel (List.drop pat.length (c :: rest)) pat rep
    else c :: replaceFuel fuel rest pat rep

/-- Python `s.replace(pat, rep)` for non-empty patterns (the only use in
the source is patterns of the form `|token|`): replace each
non-overlapping occurrence, scanning left to right. -/
def pyReplace (s pat rep : String) : String :=
  ⟨replaceFuel s.data.length s.data pat.data rep.data⟩

/-- `_apply_template`: pick the template (explicit name, else the
configured default name, else the literal `"|temperature|"`), failing
with `ArgumentError` when a named template does not exist, then replace
each `|token|` in source order via `str.replace`. -/
def _apply_template (w : Report) (template_name : Option String)
    (default_template : Option String) (templates : List (String × String)) :
    Except String String :=
  let name := match template_name with
    | none => default_template
    | some n => some n
  let tmpl : Except String String := match name with
    | none => .ok "|temperature|"
    | some n =>
      match templateLookup templates n with
      | none => .error "Specified template does not exist."
      | some t => .ok t
  tmpl.map (fun t =>
    (templateSubs w).foldl (fun acc p => pyReplace acc ("|" ++ p.1 ++ "|") p.2) t)

/-- Modelled from the spec: the label of the unique 22.5-degree wedge of
the 16-entry table containing `d`, for `d` in `[0, 360)`, with the North
wedge wrapping around as `[348.75, 360) ∪ [0, 11.25)`.  Kept separate
from the source's algorithm so the two can be compared. -/
def directionSpecWedge (d : ℚ) : String :=
  if d < 11.25 then "N" else
  if d < 33.75 then "NNE" else
  if d < 56.25 then "NE" else
  if d < 78.75 then "ENE" else
  if d < 101.25 then "E" else
  if d < 123.75 then "ESE" else
  if d < 146.25 then "SE" else
  if d < 168.75 then "SSE" else
  if d < 191.25 then "S" else
  if d < 213.75 then "SSW" else
  if d < 236.25 then "SW" else
  if d < 258.75 then "WSW" else
  if d < 281.25 then "W" else
  if d < 303.75 then "WNW" else
  if d < 326.25 then "NW" else
  if d < 348.75 then "NNW" else
  "N"

/-- A well-formed example payload (used as concrete input in witnesses):
temperature 21.04, feels-like 19.5, wind speed 3.456, icon `01d`. -/
def pEx : Payload :=
  { dt := 1600000000, temp := 21.04, feels_like := 19.5, pressure := 1013,
    humidity := 60, icon := "01d", wind_speed := 3.456, wind_deg := 180,
    timezone_offset := 3600, sunrise := 1600064700, sunset := 1600110900 }

/-- `pEx` with temperature exactly 21.25: a decimal tie that is also
exactly representable in binary floating point, so it reaches
`Decimal(...)` unchanged. -/
def pTie : Payload := { pEx with temp := 21.25 }

/-- `pEx` with temperature the IEEE-754 double nearest 21.05 (the value
`json.loads` produces for the literal `21.05`), which lies slightly above
the decimal tie. -/
def pDouble : Payload := { pEx with temp := 5925048259849309 / 281474976710656 }

/-- `pEx` with an icon code absent from both icon tables. -/
def pBadIcon : Payload := { pEx with icon := "99x" }

/-- A concrete normalized report (used as concrete input in rendering
theorems): temperature 21.0, feels-like 19.5, local sunrise 06:05 and
sunset 18:45 at offset +01:00. -/
def wEx : Report :=
  { calculated_at := 1600000000, temperature := ⟨210, 1⟩,
    feels_like := ⟨195, 1⟩, pressure := 1013, humidity := 60,
    icon := "", icon_colour := "#e5c07b", wind_speed := ⟨346, 2⟩,
    wind_direction := some "S", timezone_offset := 3600,
    sunrise := 18300, sunset := 63900 }

/-! ## Behaviour of the `_interpret_direction` loop -/

lemma idl_nil_some (d : ℚ) (c : ℚ × ℚ × String) :
    _interpret_direction_loop d [] (some c) = some c.2.2 := rfl

lemma idl_cons_none_loose {d : ℚ} (lo hi : ℚ) (s : String)
    (l : List (ℚ × ℚ × String)) (h : lo ≤ d ∨ d < hi) :
    _interpret_direction_loop d ((lo, hi, s) :: l) none =
      _interpret_direction_loop d l (some (lo, hi, s)) := by
  simp only [_interpret_direction_loop, if_pos h]

lemma idl_cons_none_skip {d : ℚ} (lo hi : ℚ) (s : String)
    (l : List (ℚ × ℚ × String)) (h : ¬(lo ≤ d ∨ d < hi)) :
    _interpret_direction_loop d ((lo, hi, s) :: l) none =
      _interpret_direction_loop d l none := by
  simp only [_interpret_direction_loop, if_neg h]

lemma idl_cons_some_skip {d : ℚ} (lo hi : ℚ) (s : String)
    (l : List (ℚ × ℚ × String)) (c : ℚ × ℚ × String) (h : ¬(lo ≤ d ∧ d < hi)) :
    _interpret_direction_loop d ((lo, hi, s) :: l) (some c) =
      _interpret_direction_loop d l (some c) := by
  by_cases h2 : lo ≤ d ∨ d < hi
  · simp only [_interpret_direction_loop, if_pos h2, if_neg h]
  · simp only [_interpret_direction_loop, if_neg h2]

lemma idl_cons_some_tight {d : ℚ} (lo hi : ℚ) (s : String)
    (l : List (ℚ × ℚ × String)) (c : ℚ × ℚ × String) (h : lo ≤ d ∧ d < hi) :
    _interpret_direction_loop d ((lo, hi, s) :: l) (some c) = some s := by
  simp only [_interpret_direction_loop, if_pos (Or.inl h.1), if_pos h]

/-- Once a candidate is held, the loop always produces a label, and the
label is the candidate's or one from the remaining wedges. -/
lemma idl_some_exists (d : ℚ) (l : List (ℚ × ℚ × String)) :
    ∀ c : ℚ × ℚ × String, ∃ s, _interpret_direction_loop d l (some c) = some s ∧
      (s = c.2.2 ∨ s ∈ l.map (fun x => x.2.2)) := by
  induction l with
  | nil => exact fun c => ⟨c.2.2, rfl, Or.inl rfl⟩
  | cons x rest ih =>
    intro c
    obtain ⟨lo, hi, s⟩ := x
    by_cases h1 : lo ≤ d ∧ d < hi
    · exact ⟨s, idl_cons_some_tight lo hi s rest c h1, Or.inr (by simp)⟩
    · obtain ⟨t, ht, hm⟩ := ih c
      refine ⟨t, by rw [idl_cons_some_skip lo hi s rest c h1]; exact ht, ?_⟩
      rcases hm with h | h
      · exact Or.inl h
      · exact Or.inr (by simp only [List.map_cons, List.mem_cons]; exact Or.inr h)

set_option maxHeartbeats 1600000 in
/-- On [0, 360), the source loop agrees with the spec's wedge table. -/
lemma interpret_direction_forall (d : ℚ) (_h0 : 0 ≤ d) (_h1 : d < 360) :
    _interpret_direction d = some (directionSpecWedge d) := by
  by_cases c1 : d < 11.25
  · -- wedge [0, 11.25) ↦ N
    have hs : directionSpecWedge d = "N" := by
      simp only [directionSpecWedge, if_pos c1]
    rw [hs]
    simp only [_interpret_direction, cardinals]
    rw [idl_cons_none_loose 348.75 11.25 "N" _ (Or.inr (by linarith)),
        idl_cons_some_skip 11.25 33.75 "NNE" _ _ (by rintro ⟨u, v⟩; linarith),
        idl_cons_some_skip 33.75 56.25 "NE" _ _ (by rintro ⟨u, v⟩; linarith),
        idl_cons_some_skip 56.25 78.75 "ENE" _ _ (by rintro ⟨u, v⟩; linarith),
        idl_cons_some_skip 78.75 101.25 "E" _ _ (by rintro ⟨u, v⟩; linarith),
        idl_cons_some_skip 101.25 123.75 "ESE" _ _ (by rintro ⟨u, v⟩; linarith),
        idl_cons_some_skip 123.75 146.25 "SE" _ _ (by rintro ⟨u, v⟩; linarith),
        idl_cons_some_skip 146.25 168.75 "SSE" _ _ (by rintro ⟨u, v⟩; linarith),
        idl_cons_some_skip 168.75 191.25 "S" _ _ (by rintro ⟨u, v⟩; linarith),
        idl_cons_some_skip 191.25 213.75 "SSW" _ _ (by rintro ⟨u, v⟩; linarith),
        idl_cons_some_skip 213.75 236.25 "SW" _ _ (by rintro ⟨u, v⟩; linarith),
        idl_cons_some_skip 236.25 258.75 "WSW" _ _ (by rintro ⟨u, v⟩; linarith),
        idl_cons_some_skip 258.75 281.25 "W" _ _ (by rintro ⟨u, v⟩; linarith),
        idl_cons_some_skip 281.25 303.75 "WNW" _ _ (by rintro ⟨u, v⟩; linarith),
        idl_cons_some_skip 303.75 326.25 "NW" _ _ (by rintro ⟨u, v⟩; linarith),
        idl_cons_some_skip 326.25 348.75 "NNW" _ _ (by rintro ⟨u, v⟩; linarith),
        idl_nil_some]
  · 
    by_cases c2 : d < 33.75
    · -- wedge [11.25, 33.75) ↦ NNE
      have hs : directionSpecWedge d = "NNE" := by
        simp only [directionSpecWedge, if_neg c1, if_pos c2]
      rw [hs]
      simp only [_interpret_direction, cardinals]
      rw [idl_cons_none_skip 348.75 11.25 "N" _ (by rintro (u | u) <;> linarith),
          idl_cons_none_loose 11.25 33.75 "NNE" _ (Or.inl (by linarith)),
          idl_cons_some_skip 33.75 56.25 "NE" _ _ (by rintro ⟨u, v⟩; linarith),
          idl_cons_some_skip 56.25 78.75 "ENE" _ _ (by rintro ⟨u, v⟩; linarith),
          idl_cons_some_skip 78.75 101.25 "E" _ _ (by rintro ⟨u, v⟩; linarith),
          idl_cons_some_skip 101.25 123.75 "ESE" _ _ (by rintro ⟨u, v⟩; linarith),
          idl_cons_some_skip 123.75 146.25 "SE" _ _ (by rintro ⟨u, v⟩; linarith),
          idl_cons_some_skip 146.25 168.75 "SSE" _ _ (by rintro ⟨u, v⟩; linarith),
          idl_cons_some_skip 168.75 191.25 "S" _ _ (by rintro ⟨u, v⟩; linarith),
          idl_cons_some_skip 191.25 213.75 "SSW" _ _ (by rintro ⟨u, v⟩; linarith),
          idl_cons_some_skip 213.75 236.25 "SW" _ _ (by rintro ⟨u, v⟩; linarith),
          idl_cons_some_skip 236.25 258.75 "WSW" _ _ (by rintro ⟨u, v⟩; linarith),
          idl_cons_some_skip 258.75 281.25 "W" _ _ (by rintro ⟨u, v⟩; linarith),
          idl_cons_some_skip 281.25 303.75 "WNW" _ _ (by rintro ⟨u, v⟩; linarith),
          idl_cons_some_skip 303.75 326.25 "NW" _ _ (by rintro ⟨u, v⟩; linarith),
          idl_cons_some_skip 326.25 348.75 "NNW" _ _ (by rintro ⟨u, v⟩; linarith),
          idl_nil_some]
    · 
      by_cases c3 : d < 56.25
      · -- wedge [33.75, 56.25) ↦ NE
        have hs : directionSpecWedge d = "NE" := by
          simp only [directionSpecWedge, if_neg c1, if_neg c2, if_pos c3]
        rw [hs]
        simp only [_interpret_direction, cardinals]
        rw [idl_cons_none_skip 348.75 11.25 "N" _ (by rintro (u | u) <;> linarith),
            idl_cons_none_loose 11.25 33.75 "NNE" _ (Or.inl (by linarith)),
            idl_cons_some_tight 33.75 56.25 "NE" _ _ ⟨by linarith, by linarith⟩]
      · 
        by_cases c4 : d < 78.75
        · -- wedge [56.25, 78.75) ↦ ENE
          have hs : directionSpecWedge d = "ENE" := by
            simp only [directionSpecWedge, if_neg c1, if_neg c2, if_neg c3, if_pos c4]
          rw [hs]
          simp only [_interpret_direction, cardinals]
          rw [idl_cons_none_skip 348.75 11.25 "N" _ (by rintro (u | u) <;> linarith),
              idl_cons_none_loose 11.25 33.75 "NNE" _ (Or.inl (by linarith)),
              idl_cons_some_skip 33.75 56.25 "NE" _ _ (by rintro ⟨u, v⟩; linarith),
              idl_cons_some_tight 56.25 78.75 "ENE" _ _ ⟨by linarith, by linarith⟩]
        · 
          by_cases c5 : d < 101.25
          · -- wedge [78.75, 101.25) ↦ E
            have hs : directionSpecWedge d = "E" := by
              simp only [directionSpecWedge, if_neg c1, if_neg c2, if_neg c3, if_neg c4, if_pos c5]
            rw [hs]
            simp only [_interpret_direction, cardinals]
            rw [idl_cons_none_skip 348.75 11.25 "N" _ (by rintro (u | u) <;> linarith),
                idl_cons_none_loose 11.25 33.75 "NNE" _ (Or.inl (by linarith)),
                idl_cons_some_skip 33.75 56.25 "NE" _ _ (by rintro ⟨u, v⟩; linarith),
                idl_cons_some_skip 56.25 78.75 "ENE" _ _ (by rintro ⟨u, v⟩; linarith),
                idl_cons_some_tight 78.75 101.25 "E" _ _ ⟨by linarith, by linarith⟩]
          · 
            by_cases c6 : d < 123.75
            · -- wedge [101.25, 123.75) ↦ ESE
              have hs : directionSpecWedge d = "ESE" := by
                simp only [directionSpecWedge, if_neg c1, if_neg c2, if_neg c3, if_neg c4, if_neg c5, if_pos c6]
              rw [hs]
              simp only [_interpret_direction, cardinals]
              rw [idl_cons_none_skip 348.75 11.25 "N" _ (by rintro (u | u) <;> linarith),
                  idl_cons_none_loose 11.25 33.75 "NNE" _ (Or.inl (by linarith)),
                  idl_cons_some_skip 33.75 56.25 "NE" _ _ (by rintro ⟨u, v⟩; linarith),
                  idl_cons_some_skip 56.25 78.75 "ENE" _ _ (by rintro ⟨u, v⟩; linarith),
                  idl_cons_some_skip 78.75 101.25 "E" _ _ (by rintro ⟨u, v⟩; linarith),
                  idl_cons_some_tight 101.25 123.75 "ESE" _ _ ⟨by linarith, by linarith⟩]
            · 
              by_cases c7 : d < 146.25
              · -- wedge [123.75, 146.25) ↦ SE
                have hs : directionSpecWedge d = "SE" := by
                  simp only [directionSpecWedge, if_neg c1, if_neg c2, if_neg c3, if_neg c4, if_neg c5, if_neg c6, if_pos c7]
                rw [hs]
                simp only [_interpret_direction, cardinals]
                rw [idl_cons_none_skip 348.75 11.25 "N" _ (by rintro (u | u) <;> linarith),
                    idl_cons_none_loose 11.25 33.75 "NNE" _ (Or.inl (by linarith)),
                    idl_cons_some_skip 33.75 56.25 "NE" _ _ (by rintro ⟨u, v⟩; linarith),
                    idl_cons_some_skip 56.25 78.75 "ENE" _ _ (by rintro ⟨u, v⟩; linarith),
                    idl_cons_some_skip 78.75 101.25 "E" _ _ (by rintro ⟨u, v⟩; linarith),
                    idl_cons_some_skip 101.25 123.75 "ESE" _ _ (by rintro ⟨u, v⟩; linarith),
                    idl_cons_some_tight 123.75 146.25 "SE" _ _ ⟨by linarith, by linarith⟩]
              · 
                by_cases c8 : d < 168.75
                · -- wedge [146.25, 168.75) ↦ SSE
                  have hs : directionSpecWedge d = "SSE" := by
                    simp only [directionSpecWedge, if_neg c1, if_neg c2, if_neg c3, if_neg c4, if_neg c5, if_neg c6, if_neg c7, if_pos c8]
                  rw [hs]
                  simp only [_interpret_direction, cardinals]
                  rw [idl_cons_none_skip 348.75 11.25 "N" _ (by rintro (u | u) <;> linarith),
                      idl_cons_none_loose 11.25 33.75 "NNE" _ (Or.inl (by linarith)),
                      idl_cons_some_skip 33.75 56.25 "NE" _ _ (by rintro ⟨u, v⟩; linarith),
                      idl_cons_some_skip 56.25 78.75 "ENE" _ _ (by rintro ⟨u, v⟩; linarith),
                      idl_cons_some_skip 78.75 101.25 "E" _ _ (by rintro ⟨u, v⟩; linarith),
                      idl_cons_some_skip 101.25 123.75 "ESE" _ _ (by rintro ⟨u, v⟩; linarith),
                      idl_cons_some_skip 123.75 146.25 "SE" _ _ (by rintro ⟨u, v⟩; linarith),
                      idl_cons_some_tight 146.25 168.75 "SSE" _ _ ⟨by linarith, by linarith⟩]
                · 
                  by_cases c9 : d < 191.25
                  · -- wedge [168.75, 191.25) ↦ S
                    have hs : directionSpecWedge d = "S" := by
                      simp only [directionSpecWedge, if_neg c1, if_neg c2, if_neg c3, if_neg c4, if_neg c5, if_neg c6, if_neg c7, if_neg c8, if_pos c9]
                    rw [hs]
                    simp only [_interpret_direction, cardinals]
                    rw [idl_cons_none_skip 348.75 11.25 "N" _ (by rintro (u | u) <;> linarith),
                        idl_cons_none_loose 11.25 33.75 "NNE" _ (Or.inl (by linarith)),
                        idl_cons_some_skip 33.75 56.25 "NE" _ _ (by rintro ⟨u, v⟩; linarith),
                        idl_cons_some_skip 56.25 78.75 "ENE" _ _ (by rintro ⟨u, v⟩; linarith),
                        idl_cons_some_skip 78.75 101.25 "E" _ _ (by rintro ⟨u, v⟩; linarith),
                        idl_cons_some_skip 101.25 123.75 "ESE" _ _ (by rintro ⟨u, v⟩; linarith),
                        idl_cons_some_skip 123.75 146.25 "SE" _ _ (by rintro ⟨u, v⟩; linarith),
                        idl_cons_some_skip 146.25 168.75 "SSE" _ _ (by rintro ⟨u, v⟩; linarith),
                        idl_cons_some_tight 168.75 191.25 "S" _ _ ⟨by linarith, by linarith⟩]
                  · 
                    by_cases c10 : d < 213.75
                    · -- wedge [191.25, 213.75) ↦ SSW
                      have hs : directionSpecWedge d = "SSW" := by
                        simp only [directionSpecWedge, if_neg c1, if_neg c2, if_neg c3, if_neg c4, if_neg c5, if_neg c6, if_neg c7, if_neg c8, if_neg c9, if_pos c10]
                      rw [hs]
                      simp only [_interpret_direction, cardinals]
                      rw [idl_cons_none_skip 348.75 11.25 "N" _ (by rintro (u | u) <;> linarith),
                          idl_cons_none_loose 11.25 33.75 "NNE" _ (Or.inl (by linarith)),
                          idl_cons_some_skip 33.75 56.25 "NE" _ _ (by rintro ⟨u, v⟩; linarith),
                          idl_cons_some_skip 56.25 78.75 "ENE" _ _ (by rintro ⟨u, v⟩; linarith),
                          idl_cons_some_skip 78.75 101.25 "E" _ _ (by rintro ⟨u, v⟩; linarith),
                          idl_cons_some_skip 101.25 123.75 "ESE" _ _ (by rintro ⟨u, v⟩; linarith),
                          idl_cons_some_skip 123.75 146.25 "SE" _ _ (by rintro ⟨u, v⟩; linarith),
                          idl_cons_some_skip 146.25 168.75 "SSE" _ _ (by rintro ⟨u, v⟩; linarith),
                          idl_cons_some_skip 168.75 191.25 "S" _ _ (by rintro ⟨u, v⟩; linarith),
                          idl_cons_some_tight 191.25 213.75 "SSW" _ _ ⟨by linarith, by linarith⟩]
                    · 
                      by_cases c11 : d < 236.25
                      · -- wedge [213.75, 236.25) ↦ SW
                        have hs : directionSpecWedge d = "SW" := by
                          simp only [directionSpecWedge, if_neg c1, if_neg c2, if_neg c3, if_neg c4, if_neg c5, if_neg c6, if_neg c7, if_neg c8, if_neg c9, if_neg c10, if_pos c11]
                        rw [hs]
                        simp only [_interpret_direction, cardinals]
                        rw [idl_cons_none_skip 348.75 11.25 "N" _ (by rintro (u | u) <;> linarith),
                            idl_cons_none_loose 11.25 33.75 "NNE" _ (Or.inl (by linarith)),
                            idl_cons_some_skip 33.75 56.25 "NE" _ _ (by rintro ⟨u, v⟩; linarith),
                            idl_cons_some_skip 56.25 78.75 "ENE" _ _ (by rintro ⟨u, v⟩; linarith),
                            idl_cons_some_skip 78.75 101.25 "E" _ _ (by rintro ⟨u, v⟩; linarith),
                            idl_cons_some_skip 101.25 123.75 "ESE" _ _ (by rintro ⟨u, v⟩; linarith),
                            idl_cons_some_skip 123.75 146.25 "SE" _ _ (by rintro ⟨u, v⟩; linarith),
                            idl_cons_some_skip 146.25 168.75 "SSE" _ _ (by rintro ⟨u, v⟩; linarith),
                            idl_cons_some_skip 168.75 191.25 "S" _ _ (by rintro ⟨u, v⟩; linarith),
                            idl_cons_some_skip 191.25 213.75 "SSW" _ _ (by rintro ⟨u, v⟩; linarith),
                            idl_cons_some_tight 213.75 236.25 "SW" _ _ ⟨by linarith, by linarith⟩]
                      · 
                        by_cases c12 : d < 258.75
                        · -- wedge [236.25, 258.75) ↦ WSW
                          have hs : directionSpecWedge d = "WSW" := by
                            simp only [directionSpecWedge, if_neg c1, if_neg c2, if_neg c3, if_neg c4, if_neg c5, if_neg c6, if_neg c7, if_neg c8, if_neg c9, if_neg c10, if_neg c11, if_pos c12]
                          rw [hs]
                          simp only [_interpret_direction, cardinals]
                          rw [idl_cons_none_skip 348.75 11.25 "N" _ (by rintro (u | u) <;> linarith),
                              idl_cons_none_loose 11.25 33.75 "NNE" _ (Or.inl (by linarith)),
                              idl_cons_some_skip 33.75 56.25 "NE" _ _ (by rintro ⟨u, v⟩; linarith),
                              idl_cons_some_skip 56.25 78.75 "ENE" _ _ (by rintro ⟨u, v⟩; linarith),
                              idl_cons_some_skip 78.75 101.25 "E" _ _ (by rintro ⟨u, v⟩; linarith),
                              idl_cons_some_skip 101.25 123.75 "ESE" _ _ (by rintro ⟨u, v⟩; linarith),
                              idl_cons_some_skip 123.75 146.25 "SE" _ _ (by rintro ⟨u, v⟩; linarith),
                              idl_cons_some_skip 146.25 168.75 "SSE" _ _ (by rintro ⟨u, v⟩; linarith),
                              idl_cons_some_skip 168.75 191.25 "S" _ _ (by rintro ⟨u, v⟩; linarith),
                              idl_cons_some_skip 191.25 213.75 "SSW" _ _ (by rintro ⟨u, v⟩; linarith),
                              idl_cons_some_skip 213.75 236.25 "SW" _ _ (by rintro ⟨u, v⟩; linarith),
                              idl_cons_some_tight 236.25 258.75 "WSW" _ _ ⟨by linarith, by linarith⟩]
                        · 
                          by_cases c13 : d < 281.25
                          · -- wedge [258.75, 281.25) ↦ W
                            have hs : directionSpecWedge d = "W" := by
                              simp only [directionSpecWedge, if_neg c1, if_neg c2, if_neg c3, if_neg c4, if_neg c5, if_neg c6, if_neg c7, if_neg c8, if_neg c9, if_neg c10, if_neg c11, if_neg c12, if_pos c13]
                            rw [hs]
                            simp only [_interpret_direction, cardinals]
                            rw [idl_cons_none_skip 348.75 11.25 "N" _ (by rintro (u | u) <;> linarith),
                                idl_cons_none_loose 11.25 33.75 "NNE" _ (Or.inl (by linarith)),
                                idl_cons_some_skip 33.75 56.25 "NE" _ _ (by rintro ⟨u, v⟩; linarith),
                                idl_cons_some_skip 56.25 78.75 "ENE" _ _ (by rintro ⟨u, v⟩; linarith),
                                idl_cons_some_skip 78.75 101.25 "E" _ _ (by rintro ⟨u, v⟩; linarith),
                                idl_cons_some_skip 101.25 123.75 "ESE" _ _ (by rintro ⟨u, v⟩; linarith),
                                idl_cons_some_skip 123.75 146.25 "SE" _ _ (by rintro ⟨u, v⟩; linarith),
                                idl_cons_some_skip 146.25 168.75 "SSE" _ _ (by rintro ⟨u, v⟩; linarith),
                                idl_cons_some_skip 168.75 191.25 "S" _ _ (by rintro ⟨u, v⟩; linarith),
                                idl_cons_some_skip 191.25 213.75 "SSW" _ _ (by rintro ⟨u, v⟩; linarith),
                                idl_cons_some_skip 213.75 236.25 "SW" _ _ (by rintro ⟨u, v⟩; linarith),
                                idl_cons_some_skip 236.25 258.75 "WSW" _ _ (by rintro ⟨u, v⟩; linarith),
                                idl_cons_some_tight 258.75 281.25 "W" _ _ ⟨by linarith, by linarith⟩]
                          · 
                            by_cases c14 : d < 303.75
                            · -- wedge [281.25, 303.75) ↦ WNW
                              have hs : directionSpecWedge d = "WNW" := by
                                simp only [directionSpecWedge, if_neg c1, if_neg c2, if_neg c3, if_neg c4, if_neg c5, if_neg c6, if_neg c7, if_neg c8, if_neg c9, if_neg c10, if_neg c11, if_neg c12, if_neg c13, if_pos c14]
                              rw [hs]
                              simp only [_interpret_direction, cardinals]
                              rw [idl_cons_none_skip 348.75 11.25 "N" _ (by rintro (u | u) <;> linarith),
                                  idl_cons_none_loose 11.25 33.75 "NNE" _ (Or.inl (by linarith)),
                                  idl_cons_some_skip 33.75 56.25 "NE" _ _ (by rintro ⟨u, v⟩; linarith),
                                  idl_cons_some_skip 56.25 78.75 "ENE" _ _ (by rintro ⟨u, v⟩; linarith),
                                  idl_cons_some_skip 78.75 101.25 "E" _ _ (by rintro ⟨u, v⟩; linarith),
                                  idl_cons_some_skip 101.25 123.75 "ESE" _ _ (by rintro ⟨u, v⟩; linarith),
                                  idl_cons_some_skip 123.75 146.25 "SE" _ _ (by rintro ⟨u, v⟩; linarith),
                                  idl_cons_some_skip 146.25 168.75 "SSE" _ _ (by rintro ⟨u, v⟩; linarith),
                                  idl_cons_some_skip 168.75 191.25 "S" _ _ (by rintro ⟨u, v⟩; linarith),
                                  idl_cons_some_skip 191.25 213.75 "SSW" _ _ (by rintro ⟨u, v⟩; linarith),
                                  idl_cons_some_skip 213.75 236.25 "SW" _ _ (by rintro ⟨u, v⟩; linarith),
                                  idl_cons_some_skip 236.25 258.75 "WSW" _ _ (by rintro ⟨u, v⟩; linarith),
                                  idl_cons_some_skip 258.75 281.25 "W" _ _ (by rintro ⟨u, v⟩; linarith),
                                  idl_cons_some_tight 281.25 303.75 "WNW" _ _ ⟨by linarith, by linarith⟩]
                            · 
                              by_cases c15 : d < 326.25
                              · -- wedge [303.75, 326.25) ↦ NW
                                have hs : directionSpecWedge d = "NW" := by
                                  simp only [directionSpecWedge, if_neg c1, if_neg c2, if_neg c3, if_neg c4, if_neg c5, if_neg c6, if_neg c7, if_neg c8, if_neg c9, if_neg c10, if_neg c11, if_neg c12, if_neg c13, if_neg c14, if_pos c15]
                                rw [hs]
                                simp only [_interpret_direction, cardinals]
                                rw [idl_cons_none_skip 348.75 11.25 "N" _ (by rintro (u | u) <;> linarith),
                                    idl_cons_none_loose 11.25 33.75 "NNE" _ (Or.inl (by linarith)),
                                    idl_cons_some_skip 33.75 56.25 "NE" _ _ (by rintro ⟨u, v⟩; linarith),
                                    idl_cons_some_skip 56.25 78.75 "ENE" _ _ (by rintro ⟨u, v⟩; linarith),
                                    idl_cons_some_skip 78.75 101.25 "E" _ _ (by rintro ⟨u, v⟩; linarith),
                                    idl_cons_some_skip 101.25 123.75 "ESE" _ _ (by rintro ⟨u, v⟩; linarith),
                                    idl_cons_some_skip 123.75 146.25 "SE" _ _ (by rintro ⟨u, v⟩; linarith),
                                    idl_cons_some_skip 146.25 168.75 "SSE" _ _ (by rintro ⟨u, v⟩; linarith),
                                    idl_cons_some_skip 168.75 191.25 "S" _ _ (by rintro ⟨u, v⟩; linarith),
                                    idl_cons_some_skip 191.25 213.75 "SSW" _ _ (by rintro ⟨u, v⟩; linarith),
                                    idl_cons_some_skip 213.75 236.25 "SW" _ _ (by rintro ⟨u, v⟩; linarith),
                                    idl_cons_some_skip 236.25 258.75 "WSW" _ _ (by rintro ⟨u, v⟩; linarith),
                                    idl_cons_some_skip 258.75 281.25 "W" _ _ (by rintro ⟨u, v⟩; linarith),
                                    idl_cons_some_skip 281.25 303.75 "WNW" _ _ (by rintro ⟨u, v⟩; linarith),
                                    idl_cons_some_tight 303.75 326.25 "NW" _ _ ⟨by linarith, by linarith⟩]
                              · 
                                by_cases c16 : d < 348.75
                                · -- wedge [326.25, 348.75) ↦ NNW
                                  have hs : directionSpecWedge d = "NNW" := by
                                    simp only [directionSpecWedge, if_neg c1, if_neg c2, if_neg c3, if_neg c4, if_neg c5, if_neg c6, if_neg c7, if_neg c8, if_neg c9, if_neg c10, if_neg c11, if_neg c12, if_neg c13, if_neg c14, if_neg c15, if_pos c16]
                                  rw [hs]
                                  simp only [_interpret_direction, cardinals]
                                  rw [idl_cons_none_skip 348.75 11.25 "N" _ (by rintro (u | u) <;> linarith),
                                      idl_cons_none_loose 11.25 33.75 "NNE" _ (Or.inl (by linarith)),
                                      idl_cons_some_skip 33.75 56.25 "NE" _ _ (by rintro ⟨u, v⟩; linarith),
                                      idl_cons_some_skip 56.25 78.75 "ENE" _ _ (by rintro ⟨u, v⟩; linarith),
                                      idl_cons_some_skip 78.75 101.25 "E" _ _ (by rintro ⟨u, v⟩; linarith),
                                      idl_cons_some_skip 101.25 123.75 "ESE" _ _ (by rintro ⟨u, v⟩; linarith),
                                      idl_cons_some_skip 123.75 146.25 "SE" _ _ (by rintro ⟨u, v⟩; linarith),
                                      idl_cons_some_skip 146.25 168.75 "SSE" _ _ (by rintro ⟨u, v⟩; linarith),
                                      idl_cons_some_skip 168.75 191.25 "S" _ _ (by rintro ⟨u, v⟩; linarith),
                                      idl_cons_some_skip 191.25 213.75 "SSW" _ _ (by rintro ⟨u, v⟩; linarith),
                                      idl_cons_some_skip 213.75 236.25 "SW" _ _ (by rintro ⟨u, v⟩; linarith),
                                      idl_cons_some_skip 236.25 258.75 "WSW" _ _ (by rintro ⟨u, v⟩; linarith),
                                      idl_cons_some_skip 258.75 281.25 "W" _ _ (by rintro ⟨u, v⟩; linarith),
                                      idl_cons_some_skip 281.25 303.75 "WNW" _ _ (by rintro ⟨u, v⟩; linarith),
                                      idl_cons_some_skip 303.75 326.25 "NW" _ _ (by rintro ⟨u, v⟩; linarith),
                                      idl_cons_some_tight 326.25 348.75 "NNW" _ _ ⟨by linarith, by linarith⟩]
                                · 
                                  -- wedge [348.75, 360) ↦ N (wraparound)
                                  have hs : directionSpecWedge d = "N" := by
                                    simp only [directionSpecWedge, if_neg c1, if_neg c2, if_neg c3, if_neg c4, if_neg c5, if_neg c6, if_neg c7, if_neg c8, if_neg c9, if_neg c10, if_neg c11, if_neg c12, if_neg c13, if_neg c14, if_neg c15, if_neg c16]
                                  rw [hs]
                                  simp only [_interpret_direction, cardinals]
                                  rw [idl_cons_none_loose 348.75 11.25 "N" _ (Or.inl (by linarith)),
                                      idl_cons_some_skip 11.25 33.75 "NNE" _ _ (by rintro ⟨u, v⟩; linarith),
                                      idl_cons_some_skip 33.75 56.25 "NE" _ _ (by rintro ⟨u, v⟩; linarith),
                                      idl_cons_some_skip 56.25 78.75 "ENE" _ _ (by rintro ⟨u, v⟩; linarith),
                                      idl_cons_some_skip 78.75 101.25 "E" _ _ (by rintro ⟨u, v⟩; linarith),
                                      idl_cons_some_skip 101.25 123.75 "ESE" _ _ (by rintro ⟨u, v⟩; linarith),
                                      idl_cons_some_skip 123.75 146.25 "SE" _ _ (by rintro ⟨u, v⟩; linarith),
                                      idl_cons_some_skip 146.25 168.75 "SSE" _ _ (by rintro ⟨u, v⟩; linarith),
                                      idl_cons_some_skip 168.75 191.25 "S" _ _ (by rintro ⟨u, v⟩; linarith),
                                      idl_cons_some_skip 191.25 213.75 "SSW" _ _ (by rintro ⟨u, v⟩; linarith),
                                      idl_cons_some_skip 213.75 236.25 "SW" _ _ (by rintro ⟨u, v⟩; linarith),
                                      idl_cons_some_skip 236.25 258.75 "WSW" _ _ (by rintro ⟨u, v⟩; linarith),
                                      idl_cons_some_skip 258.75 281.25 "W" _ _ (by rintro ⟨u, v⟩; linarith),
                                      idl_cons_some_skip 281.25 303.75 "WNW" _ _ (by rintro ⟨u, v⟩; linarith),
                                      idl_cons_some_skip 303.75 326.25 "NW" _ _ (by rintro ⟨u, v⟩; linarith),
                                      idl_cons_some_skip 326.25 348.75 "NNW" _ _ (by rintro ⟨u, v⟩; linarith),
                                      idl_nil_some]


/-! ## Rounding (`Decimal.quantize`) -/

lemma quantizeHalfEven_scale (q : ℚ) (s : ℕ) : (quantizeHalfEven q s).scale = s := rfl

/-- The quantized mantissa is within one half of the scaled input. -/
lemma quantizeHalfEven_mant_close (q : ℚ) (s : ℕ) :
    |q * 10 ^ s - ((quantizeHalfEven q s).mant : ℚ)| ≤ 1 / 2 := by
  have h0 : ((⌊q * 10 ^ s⌋ : ℤ) : ℚ) ≤ q * 10 ^ s := Int.floor_le _
  have h1 : q * 10 ^ s < (⌊q * 10 ^ s⌋ : ℤ) + 1 := Int.lt_floor_add_one _
  unfold quantizeHalfEven
  dsimp only
  split_ifs with hr1 hr2 hev
  · rw [abs_of_nonneg (by linarith)]; linarith
  · rw [abs_of_nonpos (by push_cast; linarith)]; push_cast; linarith
  · rw [abs_of_nonneg (by linarith)]; linarith
  · rw [abs_of_nonpos (by push_cast; linarith)]; push_cast; linarith

/-- The quantized value is within half an ulp of the input. -/
lemma quantizeHalfEven_close (q : ℚ) (s : ℕ) :
    |q - (quantizeHalfEven q s).toRat| ≤ 1 / (2 * 10 ^ s) := by
  have hS : (0 : ℚ) < 10 ^ s := by positivity
  have hb := quantizeHalfEven_mant_close q s
  have he : q - (quantizeHalfEven q s).toRat =
      (q * 10 ^ s - ((quantizeHalfEven q s).mant : ℚ)) / 10 ^ s := by
    rw [ScaledDecimal.toRat, quantizeHalfEven_scale]
    field_simp
  rw [he, abs_div, abs_of_pos hS]
  rw [div_le_div_iff₀ hS (by positivity)]
  calc |q * 10 ^ s - ((quantizeHalfEven q s).mant : ℚ)| * (2 * 10 ^ s)
      ≤ (1 / 2) * (2 * 10 ^ s) := by
        apply mul_le_mul_of_nonneg_right hb (by positivity)
    _ = 1 * 10 ^ s := by ring

/-- At an exact tie the chosen mantissa is even (banker's rounding). -/
lemma quantizeHalfEven_tie_even (q : ℚ) (s : ℕ)
    (h : q * 10 ^ s - (⌊q * 10 ^ s⌋ : ℚ) = 1 / 2) :
    Even (quantizeHalfEven q s).mant := by
  unfold quantizeHalfEven
  dsimp only
  rw [if_neg (by rw [h]; norm_num), if_neg (by rw [h]; norm_num)]
  by_cases hev : Even ⌊q * 10 ^ s⌋
  · rw [if_pos hev]; exact hev
  · rw [if_neg hev]
    exact (Int.even_add_one).2 hev

/-- `_filter_data` evaluated on any payload with icon code `01d`. -/
lemma filter_data_eval (p : Payload) (h : p.icon = "01d") :
    _filter_data p = .ok
      { calculated_at := p.dt, temperature := quantizeHalfEven p.temp 1,
        feels_like := quantizeHalfEven p.feels_like 1, pressure := p.pressure,
        humidity := p.humidity, icon := "", icon_colour := "#e5c07b",
        wind_speed := quantizeHalfEven p.wind_speed 2,
        wind_direction := _interpret_direction p.wind_deg,
        timezone_offset := p.timezone_offset, sunrise := p.sunrise,
        sunset := p.sunset } := by
  unfold _filter_data
  rw [h]
  rfl

/-! ## Claim theorems -/

set_option maxHeartbeats 800000 in
/-- C1: for every degree value in [0, 360), `_interpret_direction` returns
the label of the unique 22.5-degree wedge of the 16-entry table containing
it, with wraparound at North covering [348.75, 360) together with
[0, 11.25); in particular 0 ↦ N, 11.24 ↦ N, 11.25 ↦ NNE, 359.9 ↦ N and
180 ↦ S. -/
theorem interpret_direction_matches_wedge_table :
    (∀ d : ℚ, 0 ≤ d → d < 360 →
      _interpret_direction d = some (directionSpecWedge d)) ∧
    _interpret_direction 0 = some "N" ∧
    _interpret_direction 11.24 = some "N" ∧
    _interpret_direction 11.25 = some "NNE" ∧
    _interpret_direction 359.9 = some "N" ∧
    _interpret_direction 180 = some "S" := by
  refine ⟨interpret_direction_forall, ?_, ?_, ?_, ?_, ?_⟩ <;>
    norm_num [_interpret_direction, cardinals, _interpret_direction_loop]

/-- Witness for C1: the wedge correspondence applied at 180 degrees. -/
theorem interpret_direction_matches_wedge_table_witness :
    _interpret_direction 180 = some (directionSpecWedge 180) :=
  interpret_direction_matches_wedge_table.1 180 (by norm_num) (by norm_num)

/-- C2 counterexample: the source rounds 21.25 to 21.2 (ties to even),
while the claimed round-half-up rounding yields 21.3, so normalization
does not use round-half-up. -/
theorem rounding_not_half_up_counterexample :
    (_filter_data pTie).map Report.temperature = .ok ⟨212, 1⟩ ∧
    quantizeHalfUpSpec 21.25 1 = ⟨213, 1⟩ ∧
    (⟨212, 1⟩ : ScaledDecimal) ≠ ⟨213, 1⟩ := by
  refine ⟨?_, ?_, by decide⟩
  · rw [filter_data_eval pTie rfl]
    show Except.ok (quantizeHalfEven pTie.temp 1) = .ok ⟨212, 1⟩
    rw [show quantizeHalfEven pTie.temp 1 = ⟨212, 1⟩ from by
      unfold quantizeHalfEven pTie pEx
      norm_num [Int.even_iff]]
  · unfold quantizeHalfUpSpec
    norm_num

set_option maxHeartbeats 800000 in
/-- C2 amended: normalization quantizes temperature and feels-like to
1 fractional digit and wind speed to 2, exactly and reproducibly, but
with round-half-even (Python `Decimal`'s default), not round-half-up:
the result is within half an ulp of the input and exact ties take the
even mantissa.  Concretely: 21.04 ↦ 21.0; the tie 21.25 ↦ 21.2; the IEEE
double that `json.loads` produces for 21.05 (slightly above the tie)
↦ 21.1; wind speed 3.456 ↦ 3.46. -/
theorem rounding_half_even_amended :
    (∀ (q : ℚ) (s : ℕ),
      (quantizeHalfEven q s).scale = s ∧
      |q - (quantizeHalfEven q s).toRat| ≤ 1 / (2 * 10 ^ s) ∧
      (q * 10 ^ s - (⌊q * 10 ^ s⌋ : ℚ) = 1 / 2 →
        Even (quantizeHalfEven q s).mant)) ∧
    (_filter_data pEx).map Report.temperature = .ok ⟨210, 1⟩ ∧
    (_filter_data pTie).map Report.temperature = .ok ⟨212, 1⟩ ∧
    (_filter_data pDouble).map Report.temperature = .ok ⟨211, 1⟩ ∧
    (_filter_data pEx).map Report.wind_speed = .ok ⟨346, 2⟩ := by
  refine ⟨fun q s => ⟨quantizeHalfEven_scale q s, quantizeHalfEven_close q s,
    quantizeHalfEven_tie_even q s⟩, ?_, ?_, ?_, ?_⟩
  · rw [filter_data_eval pEx rfl]
    show Except.ok (quantizeHalfEven pEx.temp 1) = .ok ⟨210, 1⟩
    rw [show quantizeHalfEven pEx.temp 1 = ⟨210, 1⟩ from by
      unfold quantizeHalfEven pEx
      norm_num]
  · rw [filter_data_eval pTie rfl]
    show Except.ok (quantizeHalfEven pTie.temp 1) = .ok ⟨212, 1⟩
    rw [show quantizeHalfEven pTie.temp 1 = ⟨212, 1⟩ from by
      unfold quantizeHalfEven pTie pEx
      norm_num [Int.even_iff]]
  · rw [filter_data_eval pDouble rfl]
    show Except.ok (quantizeHalfEven pDouble.temp 1) = .ok ⟨211, 1⟩
    rw [show quantizeHalfEven pDouble.temp 1 = ⟨211, 1⟩ from by
      unfold quantizeHalfEven pDouble pEx
      norm_num]
  · rw [filter_data_eval pEx rfl]
    show Except.ok (quantizeHalfEven pEx.wind_speed 2) = .ok ⟨346, 2⟩
    rw [show quantizeHalfEven pEx.wind_speed 2 = ⟨346, 2⟩ from by
      unfold quantizeHalfEven pEx
      norm_num]

/-- Witness for C2 (amended): the tie clause applied at the exact tie
21.25 with one fractional digit. -/
theorem rounding_half_even_amended_witness :
    Even (quantizeHalfEven 21.25 1).mant :=
  (rounding_half_even_amended.1 21.25 1).2.2 (by norm_num)

/-- C3: cache lookup misses exactly when no entry exists or the entry's
age strictly exceeds the configured duration; an entry exactly as old as
the duration is still a hit, and one second older is a miss. -/
theorem cache_lookup_freshness (e : CacheEntry) (p : Payload) (now dur : ℚ)
    (h : e.read = .ok p) :
    _get_cached none now dur = .ok none ∧
    (_get_cached (some e) now dur = .ok none ↔ now - e.mtime > dur * 60) ∧
    (e.mtime = now - dur * 60 → _get_cached (some e) now dur = .ok (some p)) ∧
    (e.mtime = now - dur * 60 - 1 → _get_cached (some e) now dur = .ok none) := by
  refine ⟨rfl, ?_, ?_, ?_⟩
  · by_cases hc : now - e.mtime > dur * 60
    · simp [_get_cached, hc]
    · simp [_get_cached, hc, h, Except.map]
  · intro hm
    have hc : ¬(now - e.mtime > dur * 60) := by rw [hm]; linarith
    simp [_get_cached, hc, h, Except.map]
  · intro hm
    have hc : now - e.mtime > dur * 60 := by rw [hm]; linarith
    simp [_get_cached, hc]

/-- Witness for C3: an entry exactly `cache_duration` old is a hit. -/
theorem cache_lookup_freshness_witness :
    _get_cached (some ⟨0, .ok pEx⟩) 60 1 = .ok (some pEx) :=
  (cache_lookup_freshness ⟨0, .ok pEx⟩ pEx 60 1 rfl).2.2.1 (by norm_num)

/-- A key absent from a table makes the dictionary lookup raise. -/
lemma dictLookup_not_mem {l : List (String × String)} {k : String}
    (h : k ∉ l.map Prod.fst) : dictLookup l k = .error k := by
  unfold dictLookup
  have hf : l.find? (fun kv => kv.1 == k) = none := by
    rw [List.find?_eq_none]
    intro kv hkv
    simp only [beq_iff_eq]
    intro he
    exact h (he ▸ List.mem_map_of_mem Prod.fst hkv)
  rw [hf]

/-- C4: a payload whose icon code is not a key of the glyph table makes
normalization fail with the lookup error (the `KeyError` the spec calls
`MalformedDataError`); no report of any kind is returned. -/
theorem unknown_icon_errors (p : Payload) (h : p.icon ∉ _icons.map Prod.fst) :
    _filter_data p = .error p.icon ∧ ∀ r, _filter_data p ≠ .ok r := by
  have h1 : _filter_data p = .error p.icon := by
    unfold _filter_data
    rw [dictLookup_not_mem h]
    rfl
  exact ⟨h1, fun r hr => by rw [h1] at hr; exact Except.noConfusion hr⟩

/-- Witness for C4: the unknown icon code `99x`. -/
theorem unknown_icon_errors_witness :
    _filter_data pBadIcon = .error "99x" :=
  (unknown_icon_errors pBadIcon (by decide)).1

/-- `_get_fresh` on a non-200 response, with the response fields spelled
out. -/
lemma get_fresh_non200 (st : ℕ) (b : String) (pl : Payload) (w : Bool)
    (h : st ≠ 200) :
    _get_fresh ⟨.ok ⟨st, b, pl⟩, w⟩ =
      (.error (.apiError
        ("Received error response from API: " ++ toString st)
        (some b)), none) := by
  unfold _get_fresh
  dsimp only
  rw [if_pos h]

/-- C5: on a cache miss, a fetch answered with status 500 makes
`get_weather` fail with the `APIError` carrying that status in its
message and the response body as its data, and nothing is written to the
cache. -/
theorem get_weather_non200_apierror_no_write (entry : Option CacheEntry)
    (now dur : ℚ) (b : String) (pl : Payload) (w : Bool)
    (h : _get_cached entry now dur = .ok none) :
    get_weather entry now dur ⟨.ok ⟨500, b, pl⟩, w⟩ =
      (.error (.apiError "Received error response from API: 500" (some b)),
        none) := by
  unfold get_weather
  rw [h]
  dsimp only
  rw [get_fresh_non200 500 b pl w (by decide)]
  dsimp only
  rw [show ("Received error response from API: " ++ toString (500 : ℕ)) =
    "Received error response from API: 500" from rfl]

/-- Witness for C5: an empty cache and a 500 response. -/
theorem get_weather_non200_apierror_no_write_witness :
    get_weather none 0 30 ⟨.ok ⟨500, "boom", pEx⟩, false⟩ =
      (.error (.apiError "Received error response from API: 500"
        (some "boom")), none) :=
  get_weather_non200_apierror_no_write none 0 30 "boom" pEx false rfl

/-- C6 (divergence witness): a cache read failure propagates out of
`get_weather` as the I/O error instead of falling through to the fetch,
and a cache write failure propagates instead of returning the freshly
fetched report — both contrary to the claim. -/
theorem cache_io_failure_propagates :
    get_weather (some ⟨0, .error ()⟩) 30 1 ⟨.ok ⟨200, "", pEx⟩, false⟩ =
      (.error .ioError, none) ∧
    get_weather none 0 30 ⟨.ok ⟨200, "", pEx⟩, true⟩ =
      (.error .ioError, none) := by
  constructor
  · have hc : _get_cached (some ⟨0, .error ()⟩) 30 1 = .error () := by
      norm_num [_get_cached, Except.map]
    unfold get_weather
    rw [hc]
  · rfl

/-- C7: a non-200 response fails with the `APIError` carrying status and
body; a transport failure propagates as a distinct error; the two error
shapes are never equal. -/
theorem fetch_error_classification :
    (∀ (r : Response) (w : Bool), r.status ≠ 200 →
      _get_fresh ⟨.ok r, w⟩ =
        (.error (.apiError
          ("Received error response from API: " ++ toString r.status)
          (some r.body)), none)) ∧
    (∀ w : Bool, _get_fresh ⟨.error (), w⟩ = (.error .transportError, none)) ∧
    (∀ (m : String) (b : Option String),
      PyErr.transportError ≠ PyErr.apiError m b) := by
  refine ⟨?_, fun w => rfl, fun m b h => PyErr.noConfusion h⟩
  intro r w h
  unfold _get_fresh
  dsimp only
  rw [if_pos h]

/-- Witness for C7: a 500 response with a body. -/
theorem fetch_error_classification_witness :
    _get_fresh ⟨.ok ⟨500, "oops", pEx⟩, false⟩ =
      (.error (.apiError "Received error response from API: 500"
        (some "oops")), none) :=
  fetch_error_classification.1 ⟨500, "oops", pEx⟩ false (by decide)

/-- C8: the glyph table and the colour table have identical key sets. -/
theorem icon_tables_same_keys :
    ∀ k : String, k ∈ _icons.map Prod.fst ↔ k ∈ _icon_colours.map Prod.fst := by
  intro k
  rw [show _icons.map Prod.fst = _icon_colours.map Prod.fst from rfl]

/-- C9: rendering replaces each recognized `|token|` with the field's
string form (sunrise/sunset as HH:MM in the report's zone), leaves
unknown tokens verbatim, and uses the default `"|temperature|"` template
when none is supplied; the claim's example template renders to
"21.0 feels like 19.5". -/
theorem apply_template_renders_tokens :
    _apply_template wEx (some "t") none
        [("t", "|temperature| feels like |feels_like|")] =
      .ok "21.0 feels like 19.5" ∧
    _apply_template wEx (some "t") none [("t", "|bogus|")] = .ok "|bogus|" ∧
    _apply_template wEx none none [] = .ok "21.0" ∧
    _apply_template wEx none (some "t") [("t", "x|humidity|y")] = .ok "x60y" ∧
    _apply_template wEx (some "t") none [("t", "|icon|")] = .ok "" ∧
    _apply_template wEx (some "t") none [("t", "|icon_colour|")] =
      .ok "#e5c07b" ∧
    _apply_template wEx (some "t") none [("t", "|temperature|")] = .ok "21.0" ∧
    _apply_template wEx (some "t") none [("t", "|feels_like|")] = .ok "19.5" ∧
    _apply_template wEx (some "t") none [("t", "|calculated_at|")] =
      .ok "2020-09-13 12:26:40+00:00" ∧
    _apply_template wEx (some "t") none [("t", "|pressure|")] = .ok "1013" ∧
    _apply_template wEx (some "t") none [("t", "|humidity|")] = .ok "60" ∧
    _apply_template wEx (some "t") none [("t", "|sunrise|")] = .ok "06:05" ∧
    _apply_template wEx (some "t") none [("t", "|sunset|")] = .ok "18:45" ∧
    _apply_template wEx (some "t") none [("t", "|wind_speed|")] = .ok "3.46" ∧
    _apply_template wEx (some "t") none [("t", "|wind_direction|")] =
      .ok "S" :=
  ⟨rfl, rfl, rfl, rfl, rfl, rfl, rfl, rfl, rfl, rfl, rfl, rfl, rfl, rfl, rfl⟩

set_option maxHeartbeats 800000 in
/-- C10: for every rational degrees value — also outside [0, 360) — the
interpretation returns one of the 16 cardinal labels; the final `None`
fallback of the source is unreachable, because the first or the second
wedge is always a loose match. -/
theorem interpret_direction_total (d : ℚ) :
    ∃ s, _interpret_direction d = some s ∧
      s ∈ ["N", "NNE", "NE", "ENE", "E", "ESE", "SE", "SSE", "S", "SSW",
           "SW", "WSW", "W", "WNW", "NW", "NNW"] := by
  by_cases h1 : d < 11.25
  · simp only [_interpret_direction, cardinals]
    rw [idl_cons_none_loose 348.75 11.25 "N" _ (Or.inr h1)]
    obtain ⟨s, hs, hm⟩ := idl_some_exists d
      [(11.25, 33.75, "NNE"), (33.75, 56.25, "NE"), (56.25, 78.75, "ENE"),
       (78.75, 101.25, "E"), (101.25, 123.75, "ESE"), (123.75, 146.25, "SE"),
       (146.25, 168.75, "SSE"), (168.75, 191.25, "S"), (191.25, 213.75, "SSW"),
       (213.75, 236.25, "SW"), (236.25, 258.75, "WSW"), (258.75, 281.25, "W"),
       (281.25, 303.75, "WNW"), (303.75, 326.25, "NW"), (326.25, 348.75, "NNW")]
      (348.75, 11.25, "N")
    refine ⟨s, hs, ?_⟩
    simp only [List.map_cons, List.map_nil, List.mem_cons, List.not_mem_nil,
      or_false] at hm ⊢
    tauto
  · by_cases h2 : 348.75 ≤ d
    · simp only [_interpret_direction, cardinals]
      rw [idl_cons_none_loose 348.75 11.25 "N" _ (Or.inl h2)]
      obtain ⟨s, hs, hm⟩ := idl_some_exists d
        [(11.25, 33.75, "NNE"), (33.75, 56.25, "NE"), (56.25, 78.75, "ENE"),
         (78.75, 101.25, "E"), (101.25, 123.75, "ESE"), (123.75, 146.25, "SE"),
         (146.25, 168.75, "SSE"), (168.75, 191.25, "S"), (191.25, 213.75, "SSW"),
         (213.75, 236.25, "SW"), (236.25, 258.75, "WSW"), (258.75, 281.25, "W"),
         (281.25, 303.75, "WNW"), (303.75, 326.25, "NW"), (326.25, 348.75, "NNW")]
        (348.75, 11.25, "N")
      refine ⟨s, hs, ?_⟩
      simp only [List.map_cons, List.map_nil, List.mem_cons, List.not_mem_nil,
        or_false] at hm ⊢
      tauto
    · simp only [_interpret_direction, cardinals]
      rw [idl_cons_none_skip 348.75 11.25 "N" _
            (by simp only [not_or]; exact ⟨h2, h1⟩),
          idl_cons_none_loose 11.25 33.75 "NNE" _ (Or.inl (le_of_not_lt h1))]
      obtain ⟨s, hs, hm⟩ := idl_some_exists d
        [(33.75, 56.25, "NE"), (56.25, 78.75, "ENE"), (78.75, 101.25, "E"),
         (101.25, 123.75, "ESE"), (123.75, 146.25, "SE"), (146.25, 168.75, "SSE"),
         (168.75, 191.25, "S"), (191.25, 213.75, "SSW"), (213.75, 236.25, "SW"),
         (236.25, 258.75, "WSW"), (258.75, 281.25, "W"), (281.25, 303.75, "WNW"),
         (303.75, 326.25, "NW"), (326.25, 348.75, "NNW")]
        (11.25, 33.75, "NNE")
      refine ⟨s, hs, ?_⟩
      simp only [List.map_cons, List.map_nil, List.mem_cons, List.not_mem_nil,
        or_false] at hm ⊢
      tauto
